import Mathlib

/-!
Verification of the Inferno bootable-USB creator (Qt/C++ sources) against its
natural-language specification.

The embedded code is `DiskUtility` and `InfernoWindow` from
`inferno_full_code.cpp` (the combined single-file version) and from the
split-file version (`src/DiskUtility.h` with its implementation file, and
`src/InfernoWindow.h` with its implementation file).  Both versions of
`DiskUtility` simulate the disk operations: `enumerateRemovableDrives`
returns hard-coded dummy data for two USB drives, and `startImageWrite`
schedules four (three, in the split version) `QTimer::singleShot` callbacks
that emit fixed `progressUpdated` signals and a final `writeCompleted(true, "")`,
then returns `true`.  No real device I/O, capacity checking, locking or
cancellation exists in the sources.
-/

/-- Mirror of `struct DriveInfo` (`inferno_full_code.cpp`, also
`src/DiskUtility.h`): devicePath, driveLetter, model, size in bytes
(`qint64`), and the removable flag. -/
structure DriveInfo where
  devicePath : String
  driveLetter : String
  model : String
  size : Int
  isRemovable : Bool
deriving DecidableEq

/-- One signal emission of `DiskUtility`: either
`progressUpdated(percentage, message)` (percentage is a C++ `int`) or
`writeCompleted(success, errorMessage)`. -/
inductive WriteEvent where
  | progress (percentage : Int) (message : String)
  | completed (success : Bool) (errorMessage : String)
deriving DecidableEq

/-- True exactly on the terminal `writeCompleted` signal. -/
def WriteEvent.isTerminal : WriteEvent → Bool
  | .completed _ _ => true
  | .progress _ _ => false

/-- Mirror of `DiskUtility::enumerateRemovableDrives` (identical in
`inferno_full_code.cpp` lines 66-91 and in the split implementation file):
it unconditionally appends two hard-coded `DriveInfo` records (dummy data
standing in for WinAPI enumeration) and returns the list.  The `qDebug`
logging call has no observable effect on the result. -/
def DiskUtility.enumerateRemovableDrives : List DriveInfo :=
  [ { devicePath := "\\\\.\\PhysicalDrive1"
      driveLetter := "E:"
      model := "SanDisk Cruzer Blade (16 GB)"
      size := 16000000000
      isRemovable := true },
    { devicePath := "\\\\.\\PhysicalDrive2"
      driveLetter := "F:"
      model := "Kingston DataTraveler (32 GB)"
      size := 32000000000
      isRemovable := true } ]

/-- The enumeration result as a function of whether the platform device
layer is available.  The source method reads no platform state at all (the
data is hard-coded), so the parameter is ignored: the call behaves the same
whether or not the platform layer is available, and in particular it can
never report an `EnumerationError`. -/
def enumerateWithPlatform (platformAvailable : Bool) : List DriveInfo :=
  DiskUtility.enumerateRemovableDrives

/-- Mirror of `DiskUtility::startImageWrite` in `inferno_full_code.cpp`
(lines 101-125).  The method ignores its arguments apart from logging,
schedules four `QTimer::singleShot` callbacks and returns `true`.  The
result is the returned Bool together with the scheduled timers, each as
(delay in milliseconds, signals the callback emits in statement order). -/
def DiskUtility.startImageWrite (imagePath drivePath : String)
    (options : List (String × Bool)) : Bool × List (Nat × List WriteEvent) :=
  (true,
   [ (1000, [.progress 25 "Formatting drive and preparing partitions (Inferno Custom Partitioning)..."]),
     (3000, [.progress 75 "Writing image data (Superior Asynchronous I/O in progress)..."]),
     (5000, [.progress 90 "Verifying image integrity (SHA-256/Digital Signatures)..."]),
     (6000, [.progress 100 "Verification and finalization complete. Bootable USB Ready.",
             .completed true ""]) ])

/-- Mirror of `DiskUtility::startImageWrite` in the split implementation
file (`src/unnamed/part_001`, lines 38-58): the same shape with three
timers, the last one emitting `progressUpdated(100, ...)` followed by
`writeCompleted(true, "")`. -/
def DiskUtility.startImageWriteSplit (imagePath drivePath : String)
    (options : List (String × Bool)) : Bool × List (Nat × List WriteEvent) :=
  (true,
   [ (1000, [.progress 25 "Formatting drive and preparing partitions..."]),
     (3000, [.progress 75 "Writing image data (Superior Asynchronous I/O in progress)..."]),
     (5000, [.progress 100 "Verification and finalization complete.",
             .completed true ""]) ])

/-- Signals in delivery order: `QTimer::singleShot` callbacks fire in order
of their delays, and the delays used by `startImageWrite` are strictly
increasing (see `startImageWrite_delays_increasing`), so delivery order is
list order, with the emissions of one callback kept in statement order. -/
def deliveredEvents (timers : List (Nat × List WriteEvent)) : List WriteEvent :=
  timers.flatMap Prod.snd

/-- Checks that a list of timer delays is strictly increasing. -/
def strictlyIncreasing : List Nat → Bool
  | a :: b :: rest => decide (a < b) && strictlyIncreasing (b :: rest)
  | _ => true

/-- Checks that a list of reported percentages never decreases. -/
def monotoneNonDecreasing : List Int → Bool
  | a :: b :: rest => decide (a ≤ b) && monotoneNonDecreasing (b :: rest)
  | _ => true

/-- Delays of the scheduled timers are strictly increasing in both versions,
so the timers fire in list order. -/
theorem startImageWrite_delays_increasing :
    strictlyIncreasing ((DiskUtility.startImageWrite "" "" []).2.map Prod.fst) = true ∧
    strictlyIncreasing ((DiskUtility.startImageWriteSplit "" "" []).2.map Prod.fst) = true := by
  decide

/-- The event trace of one write session of the combined-file version.  The
method ignores its arguments, so this is the trace of every session it
starts. -/
def sessionTrace : List WriteEvent :=
  deliveredEvents (DiskUtility.startImageWrite "" "" []).2

/-- The event trace of one write session of the split-file version. -/
def sessionTraceSplit : List WriteEvent :=
  deliveredEvents (DiskUtility.startImageWriteSplit "" "" []).2

/-- The percentages carried by the `progressUpdated` signals of a trace, in
delivery order. -/
def progressPercentages (evs : List WriteEvent) : List Int :=
  evs.filterMap fun e => match e with
    | .progress p _ => some p
    | .completed _ _ => none

/-- Bytes physically written to the target device by a session after `n`
signals have been delivered.  The source performs no device I/O anywhere
(the write is simulated by timers that only emit signals), so this is 0 for
every `n`; no byte counter exists in the source. -/
def bytesWrittenAfter (n : Nat) : Int := 0

/-- The session trace as a function of whether the environment requested
cancellation after `startImageWrite` returned.  `DiskUtility` exposes no
cancellation entry point and the timer callbacks consult no flag, so the
delivered events do not depend on the request. -/
def sessionTraceWithCancel (cancelRequested : Bool) : List WriteEvent :=
  sessionTrace

/-- The reply buttons offered by the confirmation dialog in
`InfernoWindow::startBurningProcess` (`QMessageBox::Yes | QMessageBox::No`). -/
inductive StandardButton where
  | yes
  | no
deriving DecidableEq

/-- User-data (device path) of each item the drive combo box holds after
`InfernoWindow::updateDriveList`: index 0 is the placeholder item
`"Select a USB Drive..."` whose user data is an invalid `QVariant`
(`toString` gives the empty string), followed by one item per enumerated
drive carrying its `devicePath`.  The display text of each item, which the
source builds with floating-point size formatting, is not modelled; no
claim consults it. -/
def driveComboUserData : List String :=
  "" :: DiskUtility.enumerateRemovableDrives.map DriveInfo.devicePath

/-- The window state `InfernoWindow::startBurningProcess` reads: the combo
box current index, the text of `isoPathLabel`, the three option check
boxes, and the reply the user gives to the confirmation dialog. -/
structure InfernoWindowState where
  driveComboCurrentIndex : Nat
  isoPathLabelText : String
  persistenceChecked : Bool
  multiBootChecked : Bool
  win11BypassChecked : Bool
  confirmReply : StandardButton
deriving DecidableEq

/-- Outcome of one run of `InfernoWindow::startBurningProcess`: an early
return with a warning box, an early return after the user declines the
confirmation dialog, or a call to `DiskUtility::startImageWrite` with the
gathered arguments (recording the Bool it returns). -/
inductive BurnOutcome where
  | warnedNoDrive
  | warnedNoImage
  | declinedByUser
  | writeStarted (imagePath drivePath : String) (options : List (String × Bool))
      (startResult : Bool)
deriving DecidableEq

/-- Mirror of `InfernoWindow::startBurningProcess` (`inferno_full_code.cpp`
lines 185-228, identically in the split implementation file): return with a
warning if the combo index is 0; read `drivePath` from the current item
user data and `imagePath` from the label; return with a warning if the
label still reads `"No image selected."`; gather the three options; show
the confirmation dialog and return if the reply is No; otherwise call
`startImageWrite`. -/
def InfernoWindow.startBurningProcess (st : InfernoWindowState) : BurnOutcome :=
  if st.driveComboCurrentIndex = 0 then
    .warnedNoDrive
  else
    let drivePath := driveComboUserData.getD st.driveComboCurrentIndex ""
    let imagePath := st.isoPathLabelText
    if imagePath = "No image selected." then
      .warnedNoImage
    else
      let options := [("persistence", st.persistenceChecked),
                      ("multiBoot", st.multiBootChecked),
                      ("win11Bypass", st.win11BypassChecked)]
      if st.confirmReply = .no then
        .declinedByUser
      else
        .writeStarted imagePath drivePath options
          (DiskUtility.startImageWrite imagePath drivePath options).1

/-- C1 counterexample: the first progress signal of a session reports 25,
but floor(100 * bytesWritten / totalPlannedBytes) is 0 at that point (the
simulated session writes no bytes; totalPlannedBytes here is the 4 GiB
scenario value 4294967296, and the value 0 is the same for every positive
total), so the reported percentage does not equal the claimed formula. -/
theorem progress_not_floor_of_bytesWritten :
    (progressPercentages sessionTrace).head? = some 25 ∧
    100 * bytesWrittenAfter 0 / 4294967296 = 0 ∧
    (25 : Int) ≠ 100 * bytesWrittenAfter 0 / 4294967296 := by
  decide

/-- C1 (amended): the progress percentages delivered from the start of a
session until its terminal notification are the fixed sequence
25, 75, 90, 100 (25, 75, 100 in the split-file version), which is
monotonically non-decreasing; they are hard-coded, not derived from
bytesWritten. -/
theorem progress_monotone :
    monotoneNonDecreasing (progressPercentages sessionTrace) = true ∧
    monotoneNonDecreasing (progressPercentages sessionTraceSplit) = true ∧
    progressPercentages sessionTrace = [25, 75, 90, 100] ∧
    progressPercentages sessionTraceSplit = [25, 75, 100] := by
  decide

/-- C2: in both versions, the terminal `writeCompleted` notification occurs
exactly once in the session trace and is its last element, so no
`progressUpdated` signal is delivered after it. -/
theorem writeCompleted_once_and_last :
    (sessionTrace.filter WriteEvent.isTerminal).length = 1 ∧
    sessionTrace.getLast? = some (.completed true "") ∧
    (sessionTraceSplit.filter WriteEvent.isTerminal).length = 1 ∧
    sessionTraceSplit.getLast? = some (.completed true "") := by
  decide

/-- C3 counterexample: the first enumerated device has capacity
16,000,000,000 bytes, which a 20,000,000,000-byte image exceeds, yet
`startImageWrite` for that device returns `true` (a session is created and
started) and the session terminates with `writeCompleted(true, "")` — no
`InsufficientCapacity` failure occurs, indeed the source inspects no sizes
at all. -/
theorem oversized_image_write_succeeds :
    (DiskUtility.enumerateRemovableDrives.map DriveInfo.size).head? = some 16000000000 ∧
    (16000000000 : Int) < 20000000000 ∧
    (DiskUtility.startImageWrite "huge-20gb.img" "\\\\.\\PhysicalDrive1"
      [("persistence", false), ("multiBoot", false), ("win11Bypass", false)]).1 = true ∧
    (deliveredEvents (DiskUtility.startImageWrite "huge-20gb.img" "\\\\.\\PhysicalDrive1"
      [("persistence", false), ("multiBoot", false), ("win11Bypass", false)]).2).getLast?
      = some (.completed true "") := by
  decide

/-- C3 (amended): no capacity check exists: for every options map, writing
the 20,000,000,000-byte image to the 16,000,000,000-byte device starts a
session (`startImageWrite` returns `true`) and that session terminates with
success. -/
theorem no_capacity_check (options : List (String × Bool)) :
    (DiskUtility.startImageWrite "huge-20gb.img" "\\\\.\\PhysicalDrive1" options).1 = true ∧
    (deliveredEvents (DiskUtility.startImageWrite "huge-20gb.img" "\\\\.\\PhysicalDrive1"
      options).2).getLast? = some (.completed true "") :=
  ⟨rfl, rfl⟩

/-- C4 counterexample: a session during which the environment requests
cancellation still delivers the unchanged trace and terminates as
`writeCompleted(true, "")` — a successful completion, never a Cancelled
terminal state. -/
theorem cancel_request_still_completes :
    (sessionTraceWithCancel true).getLast? = some (.completed true "") ∧
    (sessionTraceWithCancel true).filter WriteEvent.isTerminal = [.completed true ""] := by
  decide

/-- C4 (amended): the code offers no cancellation mechanism: whether or not
cancellation is requested, the session delivers the same fixed trace and
terminates as a successful completion; no Cancelled terminal state exists. -/
theorem no_cancellation_mechanism (cancelRequested : Bool) :
    sessionTraceWithCancel cancelRequested = sessionTrace ∧
    (sessionTraceWithCancel cancelRequested).getLast? = some (.completed true "") :=
  ⟨rfl, rfl⟩

/-- C5 counterexample: two `startImageWrite` calls against the same device
id both return `true` and both sessions terminate with
`writeCompleted(true, "")`; in particular the second call does not fail —
its trace contains no failed terminal event — so no `DeviceBusy` rejection
happens. -/
theorem concurrent_calls_both_succeed :
    (DiskUtility.startImageWrite "first.iso" "\\\\.\\PhysicalDrive1" []).1 = true ∧
    (DiskUtility.startImageWrite "second.iso" "\\\\.\\PhysicalDrive1" []).1 = true ∧
    (deliveredEvents (DiskUtility.startImageWrite "second.iso"
      "\\\\.\\PhysicalDrive1" []).2).getLast? = some (.completed true "") ∧
    (deliveredEvents (DiskUtility.startImageWrite "second.iso"
      "\\\\.\\PhysicalDrive1" []).2).filter
      (fun e => match e with | .completed false _ => true | _ => false) = [] := by
  decide

/-- C5 (amended): there is no device-exclusivity lock: for the same device
path, any two `startImageWrite` calls both return `true` and both sessions
terminate successfully; no `DeviceBusy` failure exists in the code. -/
theorem no_device_exclusivity (ip1 ip2 dp : String) (o1 o2 : List (String × Bool)) :
    (DiskUtility.startImageWrite ip1 dp o1).1 = true ∧
    (DiskUtility.startImageWrite ip2 dp o2).1 = true ∧
    (deliveredEvents (DiskUtility.startImageWrite ip1 dp o1).2).getLast?
      = some (.completed true "") ∧
    (deliveredEvents (DiskUtility.startImageWrite ip2 dp o2).2).getLast?
      = some (.completed true "") :=
  ⟨rfl, rfl, rfl, rfl⟩

/-- C6: for the 4 GiB-image scenario on the 16,000,000,000-byte device with
no advanced options (the image size is not an input of the source method;
the path stands for the 4 GiB image), the call returns `true`, the session
ends with the success terminal event `writeCompleted(true, "")`, and the
final reported percentage is 100. -/
theorem four_gib_scenario_succeeds :
    (DiskUtility.startImageWrite "four-gib-image.iso" "\\\\.\\PhysicalDrive1"
      [("persistence", false), ("multiBoot", false), ("win11Bypass", false)]).1 = true ∧
    (deliveredEvents (DiskUtility.startImageWrite "four-gib-image.iso" "\\\\.\\PhysicalDrive1"
      [("persistence", false), ("multiBoot", false), ("win11Bypass", false)]).2).getLast?
      = some (.completed true "") ∧
    (progressPercentages (deliveredEvents (DiskUtility.startImageWrite "four-gib-image.iso"
      "\\\\.\\PhysicalDrive1" [("persistence", false), ("multiBoot", false),
      ("win11Bypass", false)]).2)).getLast? = some 100 := by
  decide

/-- C7 counterexample: with the platform device layer unavailable the
enumeration returns the very same non-empty two-element success list as
with it available: the call cannot fail, so no `EnumerationError` failure
outcome exists to be distinguished from an empty successful result. -/
theorem enumeration_never_fails :
    enumerateWithPlatform false = enumerateWithPlatform true ∧
    (enumerateWithPlatform false).length = 2 ∧
    enumerateWithPlatform false ≠ [] := by
  decide

/-- C7 (amended): every device descriptor the enumeration returns has its
removable flag set to `true`; the operation has no failure mode — whatever
the platform state, it returns the fixed hard-coded list. -/
theorem enumeration_all_removable (platformAvailable : Bool) :
    (enumerateWithPlatform platformAvailable).all DriveInfo.isRemovable = true ∧
    enumerateWithPlatform platformAvailable = DiskUtility.enumerateRemovableDrives :=
  ⟨rfl, rfl⟩

/-- C8: for every combination of image path, drive path and options, both
versions of `startImageWrite` return `true` and the scheduled session
terminates with `writeCompleted(success = true, errorMessage = "")`: no
input reaches a failure terminal event. -/
theorem startImageWrite_always_succeeds (imagePath drivePath : String)
    (options : List (String × Bool)) :
    (DiskUtility.startImageWrite imagePath drivePath options).1 = true ∧
    (deliveredEvents (DiskUtility.startImageWrite imagePath drivePath options).2).getLast?
      = some (.completed true "") ∧
    (DiskUtility.startImageWriteSplit imagePath drivePath options).1 = true ∧
    (deliveredEvents (DiskUtility.startImageWriteSplit imagePath drivePath options).2).getLast?
      = some (.completed true "") :=
  ⟨rfl, rfl, rfl, rfl⟩

/-- C9: the enumeration is deterministic and input-independent: it returns
the same list whatever the platform state, and that list is exactly the
two-element list PhysicalDrive1 with 16,000,000,000 bytes and
PhysicalDrive2 with 32,000,000,000 bytes, both marked removable. -/
theorem enumeration_deterministic_constant :
    (∀ p q : Bool, enumerateWithPlatform p = enumerateWithPlatform q) ∧
    DiskUtility.enumerateRemovableDrives.length = 2 ∧
    DiskUtility.enumerateRemovableDrives.map DriveInfo.devicePath
      = ["\\\\.\\PhysicalDrive1", "\\\\.\\PhysicalDrive2"] ∧
    DiskUtility.enumerateRemovableDrives.map DriveInfo.size
      = [16000000000, 32000000000] ∧
    DiskUtility.enumerateRemovableDrives.all DriveInfo.isRemovable = true :=
  ⟨fun _ _ => rfl, by decide, by decide, by decide, by decide⟩

/-- C10: `startBurningProcess` reaches `startImageWrite` only when a real
drive is selected (combo index greater than 0), an image path other than
`"No image selected."` is set, and the user answered Yes to the
confirmation dialog; when any precondition fails it returns early without
starting a write. -/
theorem startBurning_preconditions (st : InfernoWindowState) (ip dp : String)
    (opts : List (String × Bool)) (r : Bool)
    (h : InfernoWindow.startBurningProcess st = .writeStarted ip dp opts r) :
    0 < st.driveComboCurrentIndex ∧
    st.isoPathLabelText ≠ "No image selected." ∧
    st.confirmReply = StandardButton.yes := by
  unfold InfernoWindow.startBurningProcess at h
  by_cases h0 : st.driveComboCurrentIndex = 0
  · simp [h0] at h
  · by_cases h1 : st.isoPathLabelText = "No image selected."
    · simp [h0, h1] at h
    · by_cases h2 : st.confirmReply = StandardButton.no
      · simp [h0, h1, h2] at h
      · refine ⟨Nat.pos_of_ne_zero h0, h1, ?_⟩
        cases hc : st.confirmReply
        · rfl
        · exact absurd hc h2

/-- C10 witness: with drive index 1 selected, an image chosen, and the
confirmation answered Yes, the run starts a write and the preconditions
hold at that state. -/
theorem startBurning_preconditions_witness :
    0 < 1 ∧ "ubuntu.iso" ≠ "No image selected." ∧
    StandardButton.yes = StandardButton.yes :=
  startBurning_preconditions
    ⟨1, "ubuntu.iso", false, false, false, .yes⟩
    "ubuntu.iso" "\\\\.\\PhysicalDrive1"
    [("persistence", false), ("multiBoot", false), ("win11Bypass", false)]
    true (by decide)
